import Mathlib

/-!
Shallow embedding of the project-specific settings load/store logic of the
blender-cloud-addon repository (`blender_cloud/project_specific.py`), together
with the Flamenco manager selection semantics it relies on
(`blender_cloud/flamenco/__init__.py`).

Python dictionaries (`prefs['project_settings']`, the per-project entry, and
the per-manager sub-mapping) are embedded as association lists in which a key
occurs at most once; `alist_set` replaces the first occurrence of a key or
appends, matching `d[k] = v` on a Python dict, and `alist_get?` matches
`d.get(k)`.
-/

namespace BlenderCloud

/-- `d.get(k)` on a Python dict embedded as an association list. -/
def alist_get? {K V : Type} [DecidableEq K] : List (K × V) → K → Option V
  | [], _ => none
  | p :: rest, k => if p.1 = k then some p.2 else alist_get? rest k

/-- `d[k] = v` on a Python dict embedded as an association list: replace the
first binding of `k`, or append a new binding. -/
def alist_set {K V : Type} [DecidableEq K] : List (K × V) → K → V → List (K × V)
  | [], k, v => [(k, v)]
  | p :: rest, k, v => if p.1 = k then (k, v) :: rest else p :: alist_set rest k v

/-- One manager's saved path settings: the value stored under a manager id in
the `flamenco_managers_settings` sub-mapping (`store`, project_specific.py
lines 126-129). -/
structure ManagerSettings where
  file_path : String
  output_path : String
  output_strip_components : Int
deriving Repr, DecidableEq

/-- One entry of the available-managers list: a dict with keys `_id` and
`name` (flamenco/__init__.py line 103). -/
structure ManagerInfo where
  mid : String
  name : String
deriving Repr, DecidableEq

/-- The per-project settings dict stored under a project id in the persisted
`project_settings` mapping.  Each field models one optional dict key
(`none` = key absent). -/
structure ProjectEntry where
  cloud_project_local_path : Option String := none
  flamenco_manager_id : Option String := none
  flamenco_available_managers : Option (List ManagerInfo) := none
  flamenco_managers_settings : Option (List (String × ManagerSettings)) := none
deriving Repr, DecidableEq

/-- Python truthiness `not ps` for the per-project dict: true iff no key is
present. -/
def ProjectEntry.isEmpty (ps : ProjectEntry) : Bool :=
  ps.cloud_project_local_path.isNone && ps.flamenco_manager_id.isNone &&
  ps.flamenco_available_managers.isNone && ps.flamenco_managers_settings.isNone

/-- `FlamencoManagerGroup` (flamenco/__init__.py): the `manager` EnumProperty
and the `available_managers` ID property.  Reading a Blender EnumProperty
always yields an identifier string; the empty string stands for "no manager
selected" (it is the identifier of the placeholder item used when no managers
are available). -/
structure FlamencoManagerGroup where
  manager : String
  available_managers : List ManagerInfo
deriving Repr, DecidableEq

/-- The live preference state touched by project_specific.py.

`project` embeds `prefs.project.project` (the current project id).
`cloud_project_local_path` is the one entry of
`PROJECT_SPECIFIC_SIMPLE_PROPS`; its property declaration is not part of the
reviewed sources, so, modelled from the spec ("simple scalar settings (e.g.,
local path)"), the preference object is taken to have this attribute
(`hasattr` holds).  `project_settings` embeds the persisted
`prefs['project_settings']` ID-property mapping. -/
structure Preferences where
  project : String
  cloud_project_local_path : String
  flamenco_manager : FlamencoManagerGroup
  flamenco_job_file_path : String
  flamenco_job_output_path : String
  flamenco_job_output_strip_components : Int
  project_settings : List (String × ProjectEntry)
deriving Repr, DecidableEq

/-- The whole process state the two entry points read and write:
the preferences object, the module-global `project_settings_loading` flag,
and, modelled from the spec, the registration flags of the two optional
feature modules ("toggles their registration") and the memoisation cache of
`project_extensions` ("feature lookup result is cached per project id"),
whose definitions are outside the reviewed sources. -/
structure AddonState where
  prefs : Preferences
  project_settings_loading : Bool
  attract_active : Bool
  flamenco_active : Bool
  ext_cache : List (String × List String)
deriving Repr, DecidableEq

/-- `available_managers` items callback (flamenco/__init__.py lines 36-44):
the list of `(identifier, label)` items of the manager EnumProperty, computed
from the live available-managers list. -/
def available_managers_items (mngrs : List ManagerInfo) : List (String × String) :=
  if mngrs.isEmpty then [("", "No managers available in your Blender Cloud")]
  else mngrs.map (fun p => (p.mid, p.name))

/-- Assignment to the `manager` EnumProperty: the host accepts exactly the
identifiers of the current items list and raises `TypeError` (here `.error`)
for any other string, leaving the property unchanged. -/
def set_manager (fm : FlamencoManagerGroup) (id : String) :
    Except Unit FlamencoManagerGroup :=
  if (available_managers_items fm.available_managers).any (fun it => it.1 = id)
  then .ok { fm with manager := id }
  else .error ()

/-- Modelled from the spec: `project_extensions` is defined outside the
reviewed sources; per the spec it is a memoised
`project_extensions(project_id) -> set_of_feature_names` query.  `extFor` is
the underlying metadata query; the call consults the cache first and inserts
the computed result on a miss. -/
def project_extensions_call (extFor : String → List String)
    (cache : List (String × List String)) (pid : String) :
    List String × List (String × List String) :=
  match alist_get? cache pid with
  | some v => (v, cache)
  | none => (extFor pid, alist_set cache pid (extFor pid))

/-- Observable steps of one `handle_project_update` run, in execution order.
Each is recorded together with the value of `project_settings_loading` at the
moment it happens. -/
inductive Event where
  | cacheCleared
  | deactivated (modName : String)
  | queriedExtensions (pid : String)
  | activated (modName : String)
  | restoredSettings
  | warnedManagerNotFound (id : String)
deriving Repr, DecidableEq

/-- Settings-restore phase of `handle_project_update` (project_specific.py
lines 54-95): reads the current project's entry of the persisted mapping and
writes it back into the live preferences.  `attract.deactivate`,
`flamenco.deactivate`, `attract.activate` and `flamenco.activate` are defined
outside the reviewed sources; modelled from the spec, they toggle the
module's registration flag.  The `except TypeError` around the manager
assignment (lines 78-81) becomes the `.error` branch of `set_manager`; the
`except KeyError` around the per-manager lookup (lines 84-88) becomes the
`none` branch of the sub-mapping lookup.  Line 95's
`prefs.flamenco_manager.manager = None` (log: "Resetting Flamenco Manager to
None") is modelled from the spec as resetting the selection to the
no-manager identifier. -/
def restore_entry (prefs : Preferences) (loading : Bool) (ps : ProjectEntry) :
    Preferences × List (Event × Bool) :=
  -- lines 69-71: restore simple properties present in the saved dict
  let prefs := match ps.cloud_project_local_path with
    | some v => { prefs with cloud_project_local_path := v }
    | none => prefs
  -- line 74: restore the available-managers list
  let prefs := { prefs with flamenco_manager :=
    { prefs.flamenco_manager with
      available_managers := ps.flamenco_available_managers.getD [] } }
  match ps.flamenco_manager_id with
  | some fmid =>
    if fmid ≠ "" then
      -- lines 76-92: attempt to select the saved manager
      match set_manager prefs.flamenco_manager fmid with
      | .error _ =>
        (prefs, [(Event.warnedManagerNotFound fmid, loading)])
      | .ok fm =>
        let prefs := { prefs with flamenco_manager := fm }
        match ps.flamenco_managers_settings.bind (fun l => alist_get? l fmid) with
        | none => (prefs, [])
        | some ms =>
          ({ prefs with
              flamenco_job_file_path := ms.file_path
              flamenco_job_output_path := ms.output_path
              flamenco_job_output_strip_components := ms.output_strip_components },
           [])
    else
      ({ prefs with
          flamenco_manager := { prefs.flamenco_manager with manager := "" } }, [])
  | none =>
    -- lines 93-95: absent or falsy saved id resets the selection
    ({ prefs with
        flamenco_manager := { prefs.flamenco_manager with manager := "" } }, [])

/-- Dispatch of the settings-restore phase on the current project's entry
(project_specific.py lines 55-62): an absent or empty entry only resets the
available-managers list. -/
def load_settings (prefs : Preferences) (loading : Bool) :
    Preferences × List (Event × Bool) :=
  let ps := (alist_get? prefs.project_settings prefs.project).getD {}
  if ps.isEmpty then
    ({ prefs with
        flamenco_manager := { prefs.flamenco_manager with available_managers := [] } },
     [])
  else
    restore_entry prefs loading ps

/-- `handle_project_update` (project_specific.py lines 27-95).  Inside
`mark_as_loading` (flag raised on entry, lowered on exit): clear the
`project_extensions` cache, deactivate both feature modules, query the
enabled-extension set for the current project, activate the named modules,
then restore the project's saved settings.  Returns the final state and the
ordered trace of observable steps. -/
def handle_project_update (extFor : String → List String) (st0 : AddonState) :
    AddonState × List (Event × Bool) :=
  let st := { st0 with project_settings_loading := true }
  let project_id := st.prefs.project
  -- line 41: project_extensions.cache_clear()
  let st := { st with ext_cache := [] }
  let tr := [(Event.cacheCleared, st.project_settings_loading)]
  -- lines 44-45: attract.deactivate(); flamenco.deactivate()
  let st := { st with attract_active := false }
  let tr := tr ++ [(Event.deactivated "attract", st.project_settings_loading)]
  let st := { st with flamenco_active := false }
  let tr := tr ++ [(Event.deactivated "flamenco", st.project_settings_loading)]
  -- line 47: enabled_for = project_extensions(project_id)
  let res := project_extensions_call extFor st.ext_cache project_id
  let enabled_for := res.1
  let st := { st with ext_cache := res.2 }
  let tr := tr ++ [(Event.queriedExtensions project_id, st.project_settings_loading)]
  -- lines 49-52: activate the enabled modules
  let st := if enabled_for.contains "attract" then { st with attract_active := true } else st
  let tr := if enabled_for.contains "attract"
    then tr ++ [(Event.activated "attract", st.project_settings_loading)] else tr
  let st := if enabled_for.contains "flamenco" then { st with flamenco_active := true } else st
  let tr := if enabled_for.contains "flamenco"
    then tr ++ [(Event.activated "flamenco", st.project_settings_loading)] else tr
  -- lines 54-95: restore the project's saved settings
  let tr := tr ++ [(Event.restoredSettings, st.project_settings_loading)]
  let res2 := load_settings st.prefs st.project_settings_loading
  let st := { st with prefs := res2.1 }
  let tr := tr ++ res2.2
  -- mark_as_loading finally-block: project_settings_loading = False
  ({ st with project_settings_loading := false }, tr)

/-- `store()` (project_specific.py lines 98-142).  Returns the state
unchanged when `project_settings_loading` is set; otherwise writes the
current simple property, manager id, available-managers list, and the
selected manager's path settings into the current project's entry of the
persisted mapping. -/
def store (st : AddonState) : AddonState :=
  if st.project_settings_loading then st
  else
    let prefs := st.prefs
    let project_id := prefs.project
    let all_settings := prefs.project_settings
    let ps := (alist_get? all_settings project_id).getD {}
    let ps := { ps with cloud_project_local_path := some prefs.cloud_project_local_path }
    let ps := { ps with flamenco_manager_id := some prefs.flamenco_manager.manager }
    let ps := { ps with
      flamenco_available_managers := some prefs.flamenco_manager.available_managers }
    let pppm := ps.flamenco_managers_settings.getD []
    let pppm := alist_set pppm prefs.flamenco_manager.manager
      { file_path := prefs.flamenco_job_file_path
        output_path := prefs.flamenco_job_output_path
        output_strip_components := prefs.flamenco_job_output_strip_components }
    let ps := { ps with flamenco_managers_settings := some pppm }
    let all_settings := alist_set all_settings project_id ps
    { st with prefs := { prefs with project_settings := all_settings } }

/-! ### Association-list lemmas (Python dict semantics) -/

theorem alist_get_set_self {K V : Type} [DecidableEq K]
    (l : List (K × V)) (k : K) (v : V) :
    alist_get? (alist_set l k v) k = some v := by
  induction l with
  | nil => simp [alist_set, alist_get?]
  | cons p rest ih =>
    by_cases h : p.1 = k
    · simp [alist_set, alist_get?, h]
    · simp [alist_set, alist_get?, h, ih]

theorem alist_get_set_ne {K V : Type} [DecidableEq K]
    (l : List (K × V)) (k k' : K) (v : V) (h : k' ≠ k) :
    alist_get? (alist_set l k v) k' = alist_get? l k' := by
  have h' : ¬k = k' := fun e => h e.symm
  induction l with
  | nil => simp [alist_set, alist_get?, h']
  | cons p rest ih =>
    by_cases hp : p.1 = k
    · simp [alist_set, alist_get?, hp, h']
    · simp [alist_set, alist_get?, hp, ih]

theorem alist_set_eq_of_get {K V : Type} [DecidableEq K]
    (l : List (K × V)) (k : K) (v : V) (h : alist_get? l k = some v) :
    alist_set l k v = l := by
  induction l with
  | nil => simp [alist_get?] at h
  | cons p rest ih =>
    obtain ⟨a, b⟩ := p
    by_cases hp : a = k
    · simp [alist_get?, hp] at h
      simp [alist_set, hp, h]
    · simp [alist_get?, hp] at h
      simp [alist_set, hp, ih h]

/-! ### Characterisation of one `handle_project_update` run -/

/-- The preference state produced by `handle_project_update` is exactly the
one produced by the settings-restore phase with the loading flag raised. -/
theorem hpu_prefs (extFor : String → List String) (st : AddonState) :
    (handle_project_update extFor st).1.prefs = (load_settings st.prefs true).1 := by
  by_cases ha : "attract" ∈ (project_extensions_call extFor [] st.prefs.project).1 <;>
    by_cases hf : "flamenco" ∈ (project_extensions_call extFor [] st.prefs.project).1 <;>
      simp [handle_project_update, ha, hf]

/-- `mark_as_loading` lowers the flag again on exit. -/
theorem hpu_loading (extFor : String → List String) (st : AddonState) :
    (handle_project_update extFor st).1.project_settings_loading = false := by
  by_cases ha : "attract" ∈ (project_extensions_call extFor [] st.prefs.project).1 <;>
    by_cases hf : "flamenco" ∈ (project_extensions_call extFor [] st.prefs.project).1 <;>
      simp [handle_project_update, ha, hf]

/-- Every event of the settings-restore phase records the loading flag it was
given. -/
theorem restore_entry_events (prefs : Preferences) (loading : Bool)
    (ps : ProjectEntry) :
    ∀ e ∈ (restore_entry prefs loading ps).2, e.2 = loading := by
  intro e he
  simp only [restore_entry] at he
  repeat' split at he
  all_goals simp_all

theorem load_settings_events (prefs : Preferences) (loading : Bool) :
    ∀ e ∈ (load_settings prefs loading).2, e.2 = loading := by
  intro e he
  simp only [load_settings] at he
  split at he
  · simp at he
  · exact restore_entry_events _ _ _ e he

/-- The full trace of one run: the activation-phase events in order,
followed by the settings-restore phase. -/
theorem hpu_trace (extFor : String → List String) (st : AddonState) :
    (handle_project_update extFor st).2 =
      [(Event.cacheCleared, true), (Event.deactivated "attract", true),
       (Event.deactivated "flamenco", true),
       (Event.queriedExtensions st.prefs.project, true)]
      ++ (if (project_extensions_call extFor [] st.prefs.project).1.contains "attract"
          then [(Event.activated "attract", true)] else [])
      ++ (if (project_extensions_call extFor [] st.prefs.project).1.contains "flamenco"
          then [(Event.activated "flamenco", true)] else [])
      ++ (Event.restoredSettings, true) :: (load_settings st.prefs true).2 := by
  by_cases ha : "attract" ∈ (project_extensions_call extFor [] st.prefs.project).1 <;>
    by_cases hf : "flamenco" ∈ (project_extensions_call extFor [] st.prefs.project).1 <;>
      simp [handle_project_update, ha, hf]

/-- The modules left active by a run are exactly those named in the freshly
computed enabled-extension set of the current project. -/
theorem hpu_flags (extFor : String → List String) (st : AddonState) :
    (handle_project_update extFor st).1.attract_active
        = (extFor st.prefs.project).contains "attract" ∧
    (handle_project_update extFor st).1.flamenco_active
        = (extFor st.prefs.project).contains "flamenco" := by
  by_cases ha : "attract" ∈ (extFor st.prefs.project) <;>
    by_cases hf : "flamenco" ∈ (extFor st.prefs.project) <;>
      simp [handle_project_update, project_extensions_call, alist_get?, ha, hf]

/-- On a cleared cache the memoised query computes the metadata query. -/
theorem project_extensions_call_cleared (extFor : String → List String)
    (pid : String) :
    (project_extensions_call extFor [] pid).1 = extFor pid := by
  simp [project_extensions_call, alist_get?]

/-! ### Concrete states used by the witness theorems -/

/-- A concrete live preference state: one manager selected out of one
available manager, with a previously saved mapping holding a second project
and a second manager's settings. -/
def wPrefs : Preferences :=
  { project := "proj"
    cloud_project_local_path := "/local"
    flamenco_manager :=
      { manager := "mgr", available_managers := [{ mid := "mgr", name := "Mgr" }] }
    flamenco_job_file_path := "/files"
    flamenco_job_output_path := "/out"
    flamenco_job_output_strip_components := 1
    project_settings :=
      [("other", { cloud_project_local_path := some "/elsewhere" }),
       ("proj",
        { flamenco_managers_settings := some
            [("mgr2", { file_path := "/f2", output_path := "/o2",
                        output_strip_components := 4 })] })] }

/-- `wPrefs` with the loading flag down. -/
def wState : AddonState :=
  { prefs := wPrefs, project_settings_loading := false,
    attract_active := false, flamenco_active := false, ext_cache := [] }

/-- `wPrefs` with the loading flag up. -/
def wLoading : AddonState := { wState with project_settings_loading := true }

/-! ### C2 -/

/-- Claim C2: while `project_settings_loading` is true a call to `store()` returns
immediately and changes nothing at all: the state (persisted
`project_settings` mapping included) is returned unchanged
(project_specific.py lines 108-110). -/
theorem store_noop_while_loading (st : AddonState)
    (h : st.project_settings_loading = true) : store st = st := by
  simp [store, h]

theorem store_noop_while_loading_witness :
    wLoading.project_settings_loading = true ∧ store wLoading = wLoading :=
  ⟨rfl, store_noop_while_loading wLoading rfl⟩

/-! ### C8 -/

/-- Claim C8: `store()` is idempotent: a second call on the state left by a first
call (no intervening mutation) reproduces that state, in particular the
persisted `project_settings` mapping, exactly. -/
theorem store_idempotent (st : AddonState) : store (store st) = store st := by
  by_cases h : st.project_settings_loading <;>
    simp [store, h, alist_get_set_self, alist_set_eq_of_get]

/-! ### C7 -/

/-- Claim C7: frame property of `store()`: every other project's entry of the
persisted mapping is preserved, and inside the current project's
`flamenco_managers_settings` sub-mapping every key other than the currently
selected manager is preserved (the entry is merged, not replaced). -/
theorem store_frame (st : AddonState) (h : st.project_settings_loading = false) :
    (∀ q, q ≠ st.prefs.project →
      alist_get? (store st).prefs.project_settings q
        = alist_get? st.prefs.project_settings q) ∧
    (∀ k, k ≠ st.prefs.flamenco_manager.manager →
      alist_get? ((((alist_get? (store st).prefs.project_settings
            st.prefs.project).getD {}).flamenco_managers_settings).getD []) k
        = alist_get? ((((alist_get? st.prefs.project_settings
            st.prefs.project).getD {}).flamenco_managers_settings).getD []) k) := by
  constructor
  · intro q hq
    simp only [store, h, Bool.false_eq_true, if_false]
    exact alist_get_set_ne _ _ _ _ hq
  · intro k hk
    simp only [store, h, Bool.false_eq_true, if_false, alist_get_set_self, Option.getD_some]
    exact alist_get_set_ne _ _ _ _ hk

theorem store_frame_witness :
    wState.project_settings_loading = false ∧
    alist_get? (store wState).prefs.project_settings "other"
      = alist_get? wState.prefs.project_settings "other" ∧
    alist_get? ((((alist_get? (store wState).prefs.project_settings
          wState.prefs.project).getD {}).flamenco_managers_settings).getD []) "mgr2"
      = alist_get? ((((alist_get? wState.prefs.project_settings
          wState.prefs.project).getD {}).flamenco_managers_settings).getD []) "mgr2" :=
  ⟨rfl, (store_frame wState rfl).1 "other" (by decide),
    (store_frame wState rfl).2 "mgr2" (by decide)⟩

/-! ### C10 -/

/-- Claim C10: when no manager is selected (the manager enum reads as the falsy
no-manager identifier), `store()` still writes that value as the project's
`flamenco_manager_id` and unconditionally creates an entry of
`flamenco_managers_settings` keyed by it, holding the current job path
values (project_specific.py lines 120-130). -/
theorem store_writes_falsy_manager (st : AddonState)
    (h : st.project_settings_loading = false)
    (hm : st.prefs.flamenco_manager.manager = "") :
    (((alist_get? (store st).prefs.project_settings st.prefs.project).getD
        {}).flamenco_manager_id = some "") ∧
    alist_get? ((((alist_get? (store st).prefs.project_settings
          st.prefs.project).getD {}).flamenco_managers_settings).getD []) ""
      = some { file_path := st.prefs.flamenco_job_file_path,
               output_path := st.prefs.flamenco_job_output_path,
               output_strip_components := st.prefs.flamenco_job_output_strip_components } := by
  simp [store, h, hm, alist_get_set_self]

theorem store_writes_falsy_manager_witness :
    (let st : AddonState :=
      { wState with prefs := { wPrefs with
          flamenco_manager := { manager := "", available_managers := [] } } }
     st.project_settings_loading = false ∧
     st.prefs.flamenco_manager.manager = "" ∧
     ((((alist_get? (store st).prefs.project_settings st.prefs.project).getD
         {}).flamenco_manager_id = some "") ∧
      alist_get? ((((alist_get? (store st).prefs.project_settings
            st.prefs.project).getD {}).flamenco_managers_settings).getD []) ""
        = some { file_path := st.prefs.flamenco_job_file_path,
                 output_path := st.prefs.flamenco_job_output_path,
                 output_strip_components := st.prefs.flamenco_job_output_strip_components })) :=
  ⟨rfl, rfl, store_writes_falsy_manager _ rfl rfl⟩

/-! ### C6 -/

/-- Claim C6: when the current project has no (or an empty) entry in the
persisted mapping, a run of `handle_project_update` sets the
available-managers list to the empty list and returns without modifying the
simple property, the manager selection, or the job path fields
(project_specific.py lines 55-62). -/
theorem load_missing_entry (extFor : String → List String) (st : AddonState)
    (h : ((alist_get? st.prefs.project_settings st.prefs.project).getD
        {}).isEmpty = true) :
    (handle_project_update extFor st).1.prefs.flamenco_manager.available_managers = [] ∧
    (handle_project_update extFor st).1.prefs.cloud_project_local_path
      = st.prefs.cloud_project_local_path ∧
    (handle_project_update extFor st).1.prefs.flamenco_manager.manager
      = st.prefs.flamenco_manager.manager ∧
    (handle_project_update extFor st).1.prefs.flamenco_job_file_path
      = st.prefs.flamenco_job_file_path ∧
    (handle_project_update extFor st).1.prefs.flamenco_job_output_path
      = st.prefs.flamenco_job_output_path ∧
    (handle_project_update extFor st).1.prefs.flamenco_job_output_strip_components
      = st.prefs.flamenco_job_output_strip_components := by
  rw [hpu_prefs extFor st]
  simp [load_settings, h]

theorem load_missing_entry_witness :
    (let st : AddonState := { wState with prefs := { wPrefs with project := "nosuch" } }
     (((alist_get? st.prefs.project_settings st.prefs.project).getD
         {}).isEmpty = true) ∧
     (handle_project_update (fun _ => []) st).1.prefs.flamenco_manager.available_managers = [] ∧
     (handle_project_update (fun _ => []) st).1.prefs.flamenco_manager.manager
       = st.prefs.flamenco_manager.manager) :=
  ⟨by decide, (load_missing_entry _ _ (by decide)).1,
    (load_missing_entry _ _ (by decide)).2.2.1⟩

/-! ### C5 -/

/-- Claim C5: when the saved manager id is selected successfully but the
saved entry has no `flamenco_managers_settings` key for it (or no such
sub-mapping at all), the run selects the manager and leaves the three job
path fields exactly at their prior values; the absence is not an error
(project_specific.py lines 83-92). -/
theorem load_manager_without_saved_paths (extFor : String → List String)
    (st : AddonState) (ps : ProjectEntry) (m : String)
    (hps : alist_get? st.prefs.project_settings st.prefs.project = some ps)
    (hne : ps.isEmpty = false)
    (hm : ps.flamenco_manager_id = some m)
    (hm0 : ¬m = "")
    (hvalid : (available_managers_items (ps.flamenco_available_managers.getD [])).any
        (fun it => it.1 = m) = true)
    (hnos : ps.flamenco_managers_settings.bind (fun l => alist_get? l m) = none) :
    (handle_project_update extFor st).1.prefs.flamenco_manager.manager = m ∧
    (handle_project_update extFor st).1.prefs.flamenco_job_file_path
      = st.prefs.flamenco_job_file_path ∧
    (handle_project_update extFor st).1.prefs.flamenco_job_output_path
      = st.prefs.flamenco_job_output_path ∧
    (handle_project_update extFor st).1.prefs.flamenco_job_output_strip_components
      = st.prefs.flamenco_job_output_strip_components := by
  rw [hpu_prefs extFor st]
  cases hc : ps.cloud_project_local_path <;>
    simp [load_settings, restore_entry, set_manager, hps, hne, hm, hm0, hvalid, hnos, hc]

/-- A saved entry that selects a manager but carries no per-manager path
settings. -/
def w5entry : ProjectEntry :=
  { flamenco_manager_id := some "mgr",
    flamenco_available_managers := some [{ mid := "mgr", name := "Mgr" }] }

/-- `wState` with `w5entry` as the current project's saved entry. -/
def w5 : AddonState :=
  { wState with prefs := { wPrefs with project_settings := [("proj", w5entry)] } }

theorem load_manager_without_saved_paths_witness :
    (handle_project_update (fun _ => []) w5).1.prefs.flamenco_manager.manager = "mgr" ∧
    (handle_project_update (fun _ => []) w5).1.prefs.flamenco_job_file_path
      = w5.prefs.flamenco_job_file_path :=
  ⟨(load_manager_without_saved_paths (fun _ => []) w5 w5entry "mgr" (by decide) (by decide)
      (by decide) (by decide) (by decide) (by decide)).1,
   (load_manager_without_saved_paths (fun _ => []) w5 w5entry "mgr" (by decide) (by decide)
      (by decide) (by decide) (by decide) (by decide)).2.1⟩

/-! ### C3 -/

/-- A state whose live manager selection is `"m0"` while the current
project's saved entry names the stale manager id `"m1"`, which is not in the
restored available-managers list (that list still contains `"m0"`). -/
def staleState : AddonState :=
  { prefs :=
    { project := "projA"
      cloud_project_local_path := "/local"
      flamenco_manager :=
        { manager := "m0", available_managers := [{ mid := "m0", name := "M0" }] }
      flamenco_job_file_path := "/f"
      flamenco_job_output_path := "/o"
      flamenco_job_output_strip_components := 0
      project_settings := [("projA",
        { flamenco_manager_id := some "m1"
          flamenco_available_managers := some [{ mid := "m0", name := "M0" }] })] }
    project_settings_loading := false
    attract_active := false
    flamenco_active := false
    ext_cache := [] }

/-- Counterexample to claim C3 as stated: restoring a stale manager id does
NOT leave the manager field unset.  In `staleState` the saved id `"m1"` is
not among the restored available managers, the selection failure is caught
and warned about, yet afterwards the manager field still holds the prior
selection `"m0"` (itself a member of the restored list) — a manager remains
selected. -/
theorem load_stale_manager_cex :
    (alist_get? staleState.prefs.project_settings "projA"
      = some { flamenco_manager_id := some "m1"
               flamenco_available_managers := some [{ mid := "m0", name := "M0" }] }) ∧
    (Event.warnedManagerNotFound "m1", true)
      ∈ (handle_project_update (fun _ => []) staleState).2 ∧
    (handle_project_update (fun _ => []) staleState).1.prefs.flamenco_manager.manager
      = "m0" ∧
    ("m0" : String) ≠ "" := by
  refine ⟨by decide, ?_, by decide, by decide⟩
  decide

/-- Claim C3 as amended: for every saved entry whose `flamenco_manager_id` is
non-empty but not a valid item of the restored available-managers list,
`handle_project_update` catches the selection failure locally, records the
warning, does not raise, leaves the manager field unchanged at its prior
value (in particular it is not set to the stale id; it is unset only if it
already was), leaves the job path fields untouched, and completes the rest
of the load (the available-managers list and the simple properties are still
restored) — the failure is not fatal. -/
theorem load_stale_manager_kept_prior (extFor : String → List String)
    (st : AddonState) (ps : ProjectEntry) (m : String)
    (hps : alist_get? st.prefs.project_settings st.prefs.project = some ps)
    (hne : ps.isEmpty = false)
    (hm : ps.flamenco_manager_id = some m)
    (hm0 : ¬m = "")
    (hinvalid : (available_managers_items (ps.flamenco_available_managers.getD [])).any
        (fun it => it.1 = m) = false) :
    (handle_project_update extFor st).1.prefs.flamenco_manager.manager
      = st.prefs.flamenco_manager.manager ∧
    (Event.warnedManagerNotFound m, true) ∈ (handle_project_update extFor st).2 ∧
    (handle_project_update extFor st).1.prefs.flamenco_manager.available_managers
      = ps.flamenco_available_managers.getD [] ∧
    (handle_project_update extFor st).1.prefs.cloud_project_local_path
      = (ps.cloud_project_local_path).getD st.prefs.cloud_project_local_path ∧
    (handle_project_update extFor st).1.prefs.flamenco_job_file_path
      = st.prefs.flamenco_job_file_path ∧
    (handle_project_update extFor st).1.prefs.flamenco_job_output_path
      = st.prefs.flamenco_job_output_path ∧
    (handle_project_update extFor st).1.prefs.flamenco_job_output_strip_components
      = st.prefs.flamenco_job_output_strip_components := by
  rw [hpu_prefs extFor st, hpu_trace extFor st]
  cases hc : ps.cloud_project_local_path <;>
    simp [load_settings, restore_entry, set_manager, hps, hne, hm, hm0, hinvalid, hc]

/-- A saved entry naming a manager id that is not in its own saved
available-managers list. -/
def w3entry : ProjectEntry :=
  { flamenco_manager_id := some "gone",
    flamenco_available_managers := some [{ mid := "mgr", name := "Mgr" }] }

/-- `wState` with `w3entry` as the current project's saved entry. -/
def w3 : AddonState :=
  { wState with prefs := { wPrefs with project_settings := [("proj", w3entry)] } }

theorem load_stale_manager_kept_prior_witness :
    (handle_project_update (fun _ => []) w3).1.prefs.flamenco_manager.manager
      = w3.prefs.flamenco_manager.manager ∧
    (Event.warnedManagerNotFound "gone", true)
      ∈ (handle_project_update (fun _ => []) w3).2 :=
  ⟨(load_stale_manager_kept_prior (fun _ => []) w3 w3entry "gone" (by decide) (by decide)
      (by decide) (by decide) (by decide)).1,
   (load_stale_manager_kept_prior (fun _ => []) w3 w3entry "gone" (by decide) (by decide)
      (by decide) (by decide) (by decide)).2.1⟩

/-! ### C4 -/

/-- The persisted state of the spec's worked example, verbatim: entry
`projA` with only the keys `flamenco_manager_id = "m1"` and
`flamenco_managers_settings = { m1: {file_path: "/a", output_path: "/b",
output_strip_components: 2} }`, with `projA` as the current project and no
manager selected yet. -/
def exampleEntry : ProjectEntry :=
  { flamenco_manager_id := some "m1"
    flamenco_managers_settings := some
      [("m1", { file_path := "/a", output_path := "/b", output_strip_components := 2 })] }

def exampleState : AddonState :=
  { prefs :=
    { project := "projA"
      cloud_project_local_path := ""
      flamenco_manager := { manager := "", available_managers := [] }
      flamenco_job_file_path := "/prior"
      flamenco_job_output_path := "/prior-out"
      flamenco_job_output_strip_components := 7
      project_settings := [("projA", exampleEntry)] }
    project_settings_loading := false
    attract_active := false
    flamenco_active := false
    ext_cache := [] }

/-- Counterexample to claim C4 as stated: on exactly the persisted state of
the example (which has no `flamenco_available_managers` key), the load
restores an empty available-managers list, so selecting `"m1"` raises the
caught selection error and nothing of the example's expected outcome
happens: the manager field stays empty and the job path fields keep their
prior values instead of `/a`, `/b`, `2`. -/
theorem load_example_cex :
    (handle_project_update (fun _ => []) exampleState).1.prefs.flamenco_manager.manager
      = "" ∧
    (Event.warnedManagerNotFound "m1", true)
      ∈ (handle_project_update (fun _ => []) exampleState).2 ∧
    (handle_project_update (fun _ => []) exampleState).1.prefs.flamenco_job_file_path
      = "/prior" ∧
    (handle_project_update (fun _ => []) exampleState).1.prefs.flamenco_job_output_path
      = "/prior-out" ∧
    (handle_project_update (fun _ => []) exampleState).1.prefs.flamenco_job_output_strip_components
      = 7 := by
  refine ⟨by decide, ?_, by decide, by decide, by decide⟩
  decide

/-- Claim C4 as amended: the example's persisted entry must also carry a
`flamenco_available_managers` list containing an item with id `"m1"`; with
that single addition, running `handle_project_update` on `projA` sets the
manager field to `"m1"`, `flamenco_job_file_path` to `"/a"`,
`flamenco_job_output_path` to `"/b"` and
`flamenco_job_output_strip_components` to `2`. -/
theorem load_example_with_managers_list :
    (let st : AddonState := { exampleState with prefs := { exampleState.prefs with
        project_settings := [("projA", { exampleEntry with
          flamenco_available_managers := some [{ mid := "m1", name := "Manager One" }] })] } }
     (handle_project_update (fun _ => []) st).1.prefs.flamenco_manager.manager = "m1" ∧
     (handle_project_update (fun _ => []) st).1.prefs.flamenco_job_file_path = "/a" ∧
     (handle_project_update (fun _ => []) st).1.prefs.flamenco_job_output_path = "/b" ∧
     (handle_project_update (fun _ => []) st).1.prefs.flamenco_job_output_strip_components
       = 2) := by
  refine ⟨by decide, by decide, by decide, by decide⟩

/-! ### C1 -/

/-- Claim C1: round trip.  If `store()` runs (loading flag down) and
`handle_project_update` then reloads the same project with no intervening
mutation, the simple property comes back equal to what `store()` persisted,
and, when a manager is selected, the three job path fields do too. -/
theorem store_load_round_trip (extFor : String → List String) (st : AddonState)
    (h : st.project_settings_loading = false) :
    (handle_project_update extFor (store st)).1.prefs.cloud_project_local_path
      = st.prefs.cloud_project_local_path ∧
    (st.prefs.flamenco_manager.manager ≠ "" →
      (handle_project_update extFor (store st)).1.prefs.flamenco_job_file_path
        = st.prefs.flamenco_job_file_path ∧
      (handle_project_update extFor (store st)).1.prefs.flamenco_job_output_path
        = st.prefs.flamenco_job_output_path ∧
      (handle_project_update extFor (store st)).1.prefs.flamenco_job_output_strip_components
        = st.prefs.flamenco_job_output_strip_components) := by
  rw [hpu_prefs extFor (store st)]
  by_cases hm : st.prefs.flamenco_manager.manager = ""
  · simp [store, h, load_settings, restore_entry, ProjectEntry.isEmpty,
      alist_get_set_self, hm]
  · by_cases hv : (available_managers_items
        st.prefs.flamenco_manager.available_managers).any
        (fun it => it.1 = st.prefs.flamenco_manager.manager) = true
    · simp [store, h, load_settings, restore_entry, set_manager, ProjectEntry.isEmpty,
        alist_get_set_self, hm, hv]
    · simp [store, h, load_settings, restore_entry, set_manager, ProjectEntry.isEmpty,
        alist_get_set_self, hm, hv]

theorem store_load_round_trip_witness :
    wState.project_settings_loading = false ∧
    ("mgr" : String) ≠ "" ∧
    (handle_project_update (fun _ => []) (store wState)).1.prefs.cloud_project_local_path
      = wState.prefs.cloud_project_local_path ∧
    (handle_project_update (fun _ => []) (store wState)).1.prefs.flamenco_job_file_path
      = wState.prefs.flamenco_job_file_path :=
  ⟨rfl, by decide, (store_load_round_trip (fun _ => []) wState rfl).1,
    ((store_load_round_trip (fun _ => []) wState rfl).2 (by decide)).1⟩

/-! ### C9 -/

/-- Claim C9: order of steps.  Every run of `handle_project_update` produces,
with the loading flag recorded as true at every step, the trace: cache
cleared first, then both modules deactivated, then the enabled-extension set
queried for the current project, then exactly the modules named in that set
activated (as the final registration flags also show), and only then the
saved settings restored; the loading flag is down again when the run
returns. -/
theorem hpu_step_order (extFor : String → List String) (st : AddonState) :
    (∃ rest,
      (handle_project_update extFor st).2 =
        [(Event.cacheCleared, true), (Event.deactivated "attract", true),
         (Event.deactivated "flamenco", true),
         (Event.queriedExtensions st.prefs.project, true)]
        ++ (if (extFor st.prefs.project).contains "attract"
            then [(Event.activated "attract", true)] else [])
        ++ (if (extFor st.prefs.project).contains "flamenco"
            then [(Event.activated "flamenco", true)] else [])
        ++ (Event.restoredSettings, true) :: rest ∧
      ∀ e ∈ rest, e.2 = true) ∧
    (handle_project_update extFor st).1.attract_active
      = (extFor st.prefs.project).contains "attract" ∧
    (handle_project_update extFor st).1.flamenco_active
      = (extFor st.prefs.project).contains "flamenco" ∧
    (handle_project_update extFor st).1.project_settings_loading = false := by
  refine ⟨⟨(load_settings st.prefs true).2, ?_, load_settings_events _ _⟩,
    (hpu_flags extFor st).1, (hpu_flags extFor st).2, hpu_loading extFor st⟩
  rw [hpu_trace extFor st, project_extensions_call_cleared extFor st.prefs.project]

end BlenderCloud
